import Mathlib

/-!
Verification development for the Telegram media forwarder bot
(file `forwarderbot-secured.py`).

The Python source is shallowly embedded: the pure classification logic,
the configuration store, the in-memory forwarder state and the two
forwarding pipelines (backlog replay in `forward_all_media`, live
handling in `process_media_group` / `process_single_message`) are
translated into executable Lean definitions.  External collaborators
(the Telethon client, the file system, the bot UI) are modelled as
explicit inputs: resolved entities, pages of fetched messages, and a
dispatch outcome for each relay call.  Persistence writes are counted
rather than performed.
-/

/-! ## Message and media model

A Telethon message, restricted to the fields the bot reads:
`message.id`, `message.grouped_id`, the truthiness of the duck-typed
attributes `message.photo` / `message.video` / `message.document`, and
`message.media` (either a photo, a document wrapper carrying an
optional document with an optional MIME type, or some other media).
In Telethon the attributes are derived views of `media`; here they are
independent fields, so every attribute combination the Python code
could observe is representable.
-/

/-- The document object inside a `MessageMediaDocument`; only its
`mime_type` field is read by the bot. -/
structure TLDoc where
  mime_type : Option String
deriving DecidableEq, Repr

/-- The `message.media` field: a photo, a document wrapper (whose
`document` may be absent), or any other media object. -/
inductive MessageMedia where
  | mediaPhoto
  | mediaDocument (document : Option TLDoc)
  | mediaOther
deriving DecidableEq, Repr

/-- A message, restricted to the fields the forwarder reads. -/
structure Msg where
  id : Nat
  grouped_id : Option Nat
  photo : Bool
  video : Bool
  document : Bool
  media : Option MessageMedia
deriving DecidableEq, Repr

/-- Python truthiness of an optional string (None and the empty string
are falsy). -/
def mimeTruthy : Option String → Bool
  | none => false
  | some s => decide (s ≠ "")

/-- Lines 270-273: the media is a `MessageMediaDocument`, its document
has a truthy `mime_type`, and that MIME type starts with `video/`. -/
def docVideoMime : Option MessageMedia → Bool
  | some (MessageMedia.mediaDocument (some d)) =>
      mimeTruthy d.mime_type && (d.mime_type.getD "").startsWith "video/"
  | _ => false

/-- Lines 279-282: the media is a `MessageMediaDocument`, its document
has a truthy `mime_type`, and that MIME type does not start with
`video/`. -/
def docNonVideoMime : Option MessageMedia → Bool
  | some (MessageMedia.mediaDocument (some d)) =>
      mimeTruthy d.mime_type && !((d.mime_type.getD "").startsWith "video/")
  | _ => false

/-- Line 263: `isinstance(message.media, MessageMediaPhoto)`. -/
def isMediaPhoto : Option MessageMedia → Bool
  | some MessageMedia.mediaPhoto => true
  | _ => false

/-- `MediaForwarder.has_any_media` (lines 250-252). -/
def has_any_media (m : Msg) : Bool :=
  m.media.isSome || m.photo || m.document || m.video

/-- `MediaForwarder.check_media_type` (lines 254-284), as a function of
the filter set `mtypes` (the bot stores `self.media_types` as a set of
strings; only membership is consulted, so it is modelled as a list). -/
def check_media_type (mtypes : List String) (m : Msg) : Bool :=
  if !m.media.isSome && !m.photo && !m.document && !m.video then false
  else if mtypes.contains "photo" && (m.photo || isMediaPhoto m.media) then true
  else if mtypes.contains "video" && (m.video || docVideoMime m.media) then true
  else if mtypes.contains "document" && (m.document || docNonVideoMime m.media) then true
  else false

/-- `MediaForwarder.should_forward_message` (lines 239-248). -/
def should_forward_message (mtypes : List String) (m : Msg) : Bool :=
  if mtypes.isEmpty then has_any_media m else check_media_type mtypes m

/-! ## Specification-side classifier (for the refinement claim C3)

The media kind of an item and the filter contract, written from the
words of the specification (sections 3 and 4.1), to be compared with
the code-side `should_forward_message`.
-/

/-- The media kind of a `MediaItem` in the specification data model. -/
inductive MediaKind where
  | photo
  | video
  | document
  | noMedia
deriving DecidableEq, Repr

/-- Modelled from the spec: the kind of an item, where a document whose
underlying MIME type indicates video is classified as `video`, not
`document`. -/
def mediaKindSpec (m : Msg) : MediaKind :=
  if m.photo || isMediaPhoto m.media then MediaKind.photo
  else if m.video || docVideoMime m.media then MediaKind.video
  else if m.document ||
      (match m.media with
        | some (MessageMedia.mediaDocument _) => true
        | _ => false) then MediaKind.document
  else MediaKind.noMedia

/-- Modelled from the spec (section 4.1): forward iff the filter is
empty and the item has media, or the item kind is a member of the
filter. -/
def shouldForwardSpec (filter : List String) (m : Msg) : Bool :=
  if filter.isEmpty then decide (mediaKindSpec m ≠ MediaKind.noMedia)
  else
    match mediaKindSpec m with
    | MediaKind.photo => filter.contains "photo"
    | MediaKind.video => filter.contains "video"
    | MediaKind.document => filter.contains "document"
    | MediaKind.noMedia => false

/-- A video sent as a file: in Telethon such a message has both its
`video` and `document` attributes populated and its media is a
`MessageMediaDocument` whose MIME type is `video/mp4`. -/
def vidDocMsg : Msg :=
  { id := 1, grouped_id := none, photo := false, video := true,
    document := true,
    media := some (MessageMedia.mediaDocument (some { mime_type := some "video/mp4" })) }

/-! ## Configuration store

`Configuration` (lines 67-131): the persisted delay and the persisted
list of active forward records.  `save_count` counts calls to
`Configuration.save` (the persistence write), so frame conditions on
the store are expressible.
-/

/-- One persisted record of `data.active_forwards` (ids are stored as
strings, the media types as a list of strings). -/
structure ForwardRecord where
  source_id : String
  target_id : String
  media_types : List String
deriving DecidableEq, Repr

/-- The configuration object: the pacing delay, the persisted records,
and a counter of persistence writes. -/
structure Config where
  delay : Nat
  active_forwards : List ForwardRecord
  save_count : Nat
deriving DecidableEq, Repr

/-- `Configuration.add_active_forward` (lines 102-115): drop every
record with the same `(source_id, target_id)` pair, append the new
record, save. -/
def Configuration.add_active_forward (c : Config) (sid tid : String)
    (mts : List String) : Config :=
  let pruned := c.active_forwards.filter
    (fun f => decide (¬(f.source_id = sid ∧ f.target_id = tid)))
  { c with active_forwards := pruned ++ [{ source_id := sid, target_id := tid, media_types := mts }],
           save_count := c.save_count + 1 }

/-- `Configuration.remove_active_forward` (lines 117-127): drop every
record with the given pair; save and return true iff the list shrank. -/
def Configuration.remove_active_forward (c : Config) (sid tid : String) :
    Bool × Config :=
  let pruned := c.active_forwards.filter
    (fun f => decide (¬(f.source_id = sid ∧ f.target_id = tid)))
  if pruned.length < c.active_forwards.length then
    (true, { c with active_forwards := pruned, save_count := c.save_count + 1 })
  else
    (false, { c with active_forwards := pruned })

/-! ## Forwarder state

The mutable fields of `MediaForwarder` (lines 137-155) that the engine
logic reads and writes.  Python dictionaries keyed by the
`(source_id, target_id)` pair are modelled as association lists in
insertion order; the handler dictionary only needs its key set.
Resolved Telethon entities are reduced to their integer id.
-/

/-- A resolved chat entity (only its id is consulted). -/
structure Entity where
  id : Int
deriving DecidableEq, Repr

/-- One value of the `active_forwards` dictionary: the media-type
filter and the running flag. -/
structure ForwardEntry where
  media_types : List String
  is_running : Bool
deriving DecidableEq, Repr

/-- Association list lookup with decidable key equality (a Python
dictionary read). -/
def alookup {α : Type} : List ((String × String) × α) → (String × String) → Option α
  | [], _ => none
  | p :: rest, k => if p.1 = k then some p.2 else alookup rest k

/-- Python dictionary assignment: replace in place if the key exists,
otherwise append. -/
def dictSet {α : Type} (l : List ((String × String) × α)) (k : String × String)
    (v : α) : List ((String × String) × α) :=
  if (alookup l k).isSome then
    l.map (fun p => if p.1 = k then (k, v) else p)
  else l ++ [(k, v)]

/-- Python dictionary deletion. -/
def dictDel {α : Type} (l : List ((String × String) × α)) (k : String × String) :
    List ((String × String) × α) :=
  l.filter (fun p => decide (p.1 ≠ k))

/-- The in-memory state of `MediaForwarder`. -/
structure ForwarderState where
  saved_id : Int
  source_chat : Option Entity
  target_chat : Option Entity
  media_types : List String
  active_forwards : List ((String × String) × ForwardEntry)
  handlers : List (String × String)
  forwarded_groups : List ((String × String) × List Nat)
  message_count : Nat
  config : Config
deriving DecidableEq, Repr

/-- Lines 288-290: the dictionary key of a rule, with the destination
normalized to `saved_messages` when the target entity is the saved
messages chat. -/
def startKey (st : ForwarderState) (source target : Entity) : String × String :=
  (toString source.id,
   if target.id = st.saved_id then "saved_messages" else toString target.id)

/-- `MediaForwarder.start_forward_monitoring` (lines 286-332).  The
event-handler registration is modelled by recording the key in
`handlers`; everything else follows the source line by line: the
early return when the pair is already running, the window reset, the
global filter assignment, the table insert and the configuration
write. -/
def start_forward_monitoring (st : ForwarderState) (source target : Entity)
    (mts : List String) : Bool × ForwarderState :=
  let key := startKey st source target
  let runningAlready :=
    match alookup st.active_forwards key with
    | some e => e.is_running
    | none => false
  if runningAlready then (false, st)
  else
    (true,
     { st with
       forwarded_groups := dictSet st.forwarded_groups key [],
       media_types := mts,
       handlers := if st.handlers.any (fun k0 => decide (k0 = key))
                   then st.handlers else st.handlers ++ [key],
       active_forwards := dictSet st.active_forwards key
         { media_types := mts, is_running := true },
       config := Configuration.add_active_forward st.config key.1 key.2 mts })

/-! ## Stopping a rule -/

/-- Lines 406-411: normalization of the caller-supplied destination id
(the shorthand `saved` becomes the canonical `saved_messages`). -/
def stopNorm (target_id : String) : String :=
  if target_id = "saved" then "saved_messages" else target_id

/-- The state mutation of a successful stop (lines 418-443 and the
alternative-key branch 446-474): clear the running flag and delete the
entry (net effect: deletion), drop the event handler, drop the dedup
window, remove the record from the configuration. -/
def stopApply (st : ForwarderState) (source_id tid : String) : ForwarderState :=
  { st with
    active_forwards := dictDel st.active_forwards (source_id, tid),
    handlers := st.handlers.filter (fun k => decide (k ≠ (source_id, tid))),
    forwarded_groups := dictDel st.forwarded_groups (source_id, tid),
    config := (Configuration.remove_active_forward st.config source_id tid).2 }

/-- `MediaForwarder.stop_forward_monitoring` (lines 404-481): look up
the normalized key; if absent and the normalized destination is
`saved_messages`, retry with the alternative shorthand key; otherwise
report not found. -/
def stop_forward_monitoring (st : ForwarderState) (source_id target_id0 : String) :
    Bool × ForwarderState :=
  if (alookup st.active_forwards (source_id, stopNorm target_id0)).isSome then
    (true, stopApply st source_id (stopNorm target_id0))
  else if stopNorm target_id0 = "saved_messages" then
    if (alookup st.active_forwards (source_id, "saved")).isSome then
      (true, stopApply st source_id "saved")
    else (false, st)
  else (false, st)

/-- A concrete state with one active rule keyed `(1, saved_messages)`. -/
def stSavedRule : ForwarderState :=
  { saved_id := 777, source_chat := none, target_chat := none,
    media_types := [],
    active_forwards := [(("1", "saved_messages"),
      { media_types := ["photo"], is_running := true })],
    handlers := [("1", "saved_messages")],
    forwarded_groups := [(("1", "saved_messages"), [])],
    message_count := 0,
    config :=
      { delay := 3,
        active_forwards := [{ source_id := "1", target_id := "saved_messages",
                              media_types := ["photo"] }],
        save_count := 0 } }

/-- A concrete state with no active rules at all. -/
def stNoRules : ForwarderState :=
  { saved_id := 777, source_chat := none, target_chat := none,
    media_types := [], active_forwards := [], handlers := [],
    forwarded_groups := [], message_count := 0,
    config := { delay := 3, active_forwards := [], save_count := 0 } }

/-! ## Backlog replay (`forward_all_media`, lines 483-617)

The transport is modelled by a list of history pages (fetching past
the last page yields the empty page, which ends the loop) and by a
dispatch oracle giving the outcome of the n-th `forward_messages`
call.  The progress pre-scan (lines 494-505) only feeds the progress
callback and is not modelled.  The pipeline appends observable
actions (relay attempts, sleeps, the final monitoring hand-off) to a
trace.
-/

/-- Outcome of one `forward_messages` transport call: success, a
`FloodWaitError` carrying the provider wait, or any other exception. -/
inductive DispatchOutcome where
  | ok
  | flood (seconds : Nat)
  | err
deriving DecidableEq, Repr

/-- One fetched history page, or a total transport failure while
fetching (an exception escaping `iter_messages`). -/
inductive FetchResult where
  | batchOk (msgs : List Msg)
  | batchFail
deriving DecidableEq, Repr

/-- Observable actions: a relay attempt (with the ids of the messages
handed to `forward_messages`), a sleep of so many seconds, and the
hand-off to live monitoring. -/
inductive Act where
  | attempt (ids : List Nat)
  | slept (seconds : Nat)
  | monitorStarted
deriving DecidableEq, Repr

/-- Replay context: dispatch oracle (outcome of the n-th relay call),
the configured delay, the filter set, the optional caller limit. -/
structure ReplayCtx where
  oracle : Nat → DispatchOutcome
  delay : Nat
  mtypes : List String
  limit : Option Nat

/-- The loop state of `forward_all_media`: the forwarded count, the
run-local `forwarded_groups` set (kept in insertion order), the
`processed` counter, the relay-call counter and the action trace. -/
structure ReplaySt where
  count : Nat
  groups : List Nat
  processed : Nat
  calls : Nat
  trace : List Act
deriving DecidableEq, Repr

/-- Python truthiness of `grouped_id` (None and 0 are falsy). -/
def pyTruthy : Option Nat → Bool
  | none => false
  | some n => decide (n ≠ 0)

/-- Lines 554-573: one ungrouped message.  If it passes the filter it
is relayed: on success the count grows and the configured delay is
slept; on `FloodWaitError` the signaled wait is slept and the message
is left behind; on any other error processing just continues. -/
def handleSingle (ctx : ReplayCtx) (s : ReplaySt) (m : Msg) : ReplaySt :=
  if should_forward_message ctx.mtypes m then
    match ctx.oracle s.calls with
    | DispatchOutcome.ok =>
        { s with count := s.count + 1, calls := s.calls + 1,
                 trace := s.trace ++ [Act.attempt [m.id], Act.slept ctx.delay] }
    | DispatchOutcome.flood w =>
        { s with calls := s.calls + 1,
                 trace := s.trace ++ [Act.attempt [m.id], Act.slept w] }
    | DispatchOutcome.err =>
        { s with calls := s.calls + 1,
                 trace := s.trace ++ [Act.attempt [m.id]] }
  else s

/-- Lines 576-602: one media group of the page.  A group already in
the run-local window is skipped; otherwise, if any part passes the
filter, the whole group is relayed and only on success is the group id
recorded in the window (line 589 runs after the `forward_messages`
call of line 587). -/
def handleGroup (ctx : ReplayCtx) (s : ReplaySt) (g : Nat × List Msg) : ReplaySt :=
  if s.groups.contains g.1 then s
  else if g.2.any (fun m => should_forward_message ctx.mtypes m) then
    match ctx.oracle s.calls with
    | DispatchOutcome.ok =>
        { s with count := s.count + g.2.length,
                 groups := s.groups ++ [g.1],
                 calls := s.calls + 1,
                 trace := s.trace ++ [Act.attempt (g.2.map Msg.id), Act.slept ctx.delay] }
    | DispatchOutcome.flood w =>
        { s with calls := s.calls + 1,
                 trace := s.trace ++ [Act.attempt (g.2.map Msg.id), Act.slept w] }
    | DispatchOutcome.err =>
        { s with calls := s.calls + 1,
                 trace := s.trace ++ [Act.attempt (g.2.map Msg.id)] }
  else s

/-- Helper of the partition (lines 543-552): append a grouped message
to its group, creating the group at the end on first sight (Python
dictionaries keep insertion order). -/
def addGrouped (gs : List (Nat × List Msg)) (gid : Nat) (m : Msg) :
    List (Nat × List Msg) :=
  if gs.any (fun p => decide (p.1 = gid)) then
    gs.map (fun p => if p.1 = gid then (p.1, p.2 ++ [m]) else p)
  else gs ++ [(gid, [m])]

/-- Lines 538-552: split a page into the grouped messages (keyed by
`grouped_id`, in first-appearance order) and the ungrouped ones. -/
def partitionBatch (batch : List Msg) : List (Nat × List Msg) × List Msg :=
  batch.foldl
    (fun acc m =>
      if pyTruthy m.grouped_id then (addGrouped acc.1 (m.grouped_id.getD 0) m, acc.2)
      else (acc.1, acc.2 ++ [m]))
    ([], [])

/-- Lines 554-602: process one page, singles first, then the groups. -/
def processBatch (ctx : ReplayCtx) (s : ReplaySt) (batch : List Msg) : ReplaySt :=
  (partitionBatch batch).1.foldl (handleGroup ctx)
    ((partitionBatch batch).2.foldl (handleSingle ctx) s)

/-- Python truthiness of the `limit` argument (None and 0 are falsy,
line 526 and line 604 test `if limit and processed >= limit`). -/
def limitTruthy : Option Nat → Bool
  | none => false
  | some l => decide (l ≠ 0)

/-- Lines 523-527: page accumulation stops as soon as `processed`
reaches a truthy limit, so the page is cut to `limit - processed`
messages. -/
def truncBatch (lim : Option Nat) (processed : Nat) (page : List Msg) : List Msg :=
  if limitTruthy lim then page.take (lim.getD 0 - processed) else page

/-- Line 604: the loop ends when a truthy limit has been reached. -/
def limitReached (lim : Option Nat) (processed : Nat) : Bool :=
  limitTruthy lim && decide (lim.getD 0 ≤ processed)

/-- Result of the paging loop: either a transport failure with the
partial count (the `except` of line 613 returns `False, count`), or
normal completion. -/
inductive ReplayResult where
  | failed (count : Nat) (s : ReplaySt)
  | finished (s : ReplaySt)
deriving DecidableEq, Repr

/-- The `while True` paging loop (lines 512-606): fetch a page (a
failure aborts the whole run), stop on an empty page, otherwise
process the page and either stop at the limit or continue. -/
def replayLoop (ctx : ReplayCtx) : List FetchResult → ReplaySt → ReplayResult
  | [], s => ReplayResult.finished s
  | FetchResult.batchFail :: _, s => ReplayResult.failed s.count s
  | FetchResult.batchOk page :: rest, s =>
    let batch := truncBatch ctx.limit s.processed page
    if batch.isEmpty then ReplayResult.finished s
    else
      let s1 := processBatch ctx { s with processed := s.processed + batch.length } batch
      if limitReached ctx.limit s1.processed then ReplayResult.finished s1
      else replayLoop ctx rest s1

/-- The replay environment: the pages the transport will serve, the
dispatch oracle and the caller limit. -/
structure ReplayEnv where
  batches : List FetchResult
  oracle : Nat → DispatchOutcome
  limit : Option Nat

/-- The context of a run, read from the forwarder state (the filter is
`self.media_types`, the delay `self.config.data.delay`). -/
def mkCtx (env : ReplayEnv) (st : ForwarderState) : ReplayCtx :=
  { oracle := env.oracle, delay := st.config.delay,
    mtypes := st.media_types, limit := env.limit }

/-- The initial loop state (lines 488-510). -/
def replayInit : ReplaySt :=
  { count := 0, groups := [], processed := 0, calls := 0, trace := [] }

/-- `MediaForwarder.forward_all_media` (lines 483-617): guard on the
selected chats, run the paging loop; on a transport failure return
`(False, count)` with the state untouched; on completion call
`start_forward_monitoring` for the same chats (line 610) and return
`(True, count)`.  The result is the returned pair, the new forwarder
state and the action trace. -/
def forward_all_media (env : ReplayEnv) (st : ForwarderState) :
    (Bool × Nat) × ForwarderState × List Act :=
  match st.source_chat, st.target_chat with
  | some src, some tgt =>
    match replayLoop (mkCtx env st) env.batches replayInit with
    | ReplayResult.failed c s => ((false, c), st, s.trace)
    | ReplayResult.finished s =>
        ((true, s.count),
         (start_forward_monitoring st src tgt st.media_types).2,
         s.trace ++ [Act.monitorStarted])
  | _, _ => ((false, 0), st, [])

/-! ## Live monitoring handlers (lines 334-402)

The live handler for one new-message event.  The bounded re-fetch of
recent messages (line 350) is modelled by the `recent` argument, the
single relay call by a `DispatchOutcome`.
-/

/-- Lines 378-382: the dedup-window trim.  CPython sets do not keep
insertion order; for the windows arising here (distinct nonnegative
ids small enough to hash to their own table slot) iteration order is
ascending numeric order, so `set(list(w)[-50:])` keeps the 50 largest
ids.  The window is represented by its insertion-order list. -/
def trimWindow (w : List Nat) : List Nat :=
  if w.length > 100 then (List.insertionSort (· ≤ ·) w).drop (w.length - 50) else w

/-- `MediaForwarder.process_media_group` (lines 334-382): skip a group
already in the window of this rule; otherwise record it *before*
relaying (line 345), re-fetch recent messages and keep those of the
same group, relay the whole group if any part passes the filter, and
finally trim the window. -/
def process_media_group (outcome : DispatchOutcome) (recent : List Msg)
    (st : ForwarderState) (key : String × String) (m : Msg) :
    ForwarderState × List Act :=
  let window := (alookup st.forwarded_groups key).getD []
  let gid := m.grouped_id.getD 0
  if window.contains gid then (st, [])
  else
    let window1 := window ++ [gid]
    let group_messages := recent.filter (fun msg => msg.grouped_id == m.grouped_id)
    let stepped :=
      if group_messages.any (fun msg => should_forward_message st.media_types msg)
          && !group_messages.isEmpty then
        match outcome with
        | DispatchOutcome.ok =>
            (st.message_count + group_messages.length,
             [Act.attempt (group_messages.map Msg.id), Act.slept st.config.delay])
        | DispatchOutcome.flood w =>
            (st.message_count,
             [Act.attempt (group_messages.map Msg.id), Act.slept w])
        | DispatchOutcome.err =>
            (st.message_count, [Act.attempt (group_messages.map Msg.id)])
      else (st.message_count, [])
    ({ st with forwarded_groups := dictSet st.forwarded_groups key (trimWindow window1),
               message_count := stepped.1 },
     stepped.2)

/-- `MediaForwarder.process_single_message` (lines 384-402): relay a
single message if it passes the filter; sleep the configured delay on
success, sleep the signaled wait on `FloodWaitError`, and swallow any
other error. -/
def process_single_message (outcome : DispatchOutcome) (st : ForwarderState)
    (m : Msg) : ForwarderState × List Act :=
  if should_forward_message st.media_types m then
    match outcome with
    | DispatchOutcome.ok =>
        ({ st with message_count := st.message_count + 1 },
         [Act.attempt [m.id], Act.slept st.config.delay])
    | DispatchOutcome.flood w =>
        (st, [Act.attempt [m.id], Act.slept w])
    | DispatchOutcome.err =>
        (st, [Act.attempt [m.id]])
  else (st, [])

/-! ## Shared concrete inputs for the replay claims -/

/-- A photo message with a given id and group id. -/
def mPhoto (i : Nat) (g : Option Nat) : Msg :=
  { id := i, grouped_id := g, photo := true, video := false, document := false,
    media := some MessageMedia.mediaPhoto }

/-- A fresh forwarder state with both chats selected and an empty
filter (forward any media), delay 3. -/
def stRun : ForwarderState :=
  { saved_id := 777, source_chat := some { id := 10 }, target_chat := some { id := 20 },
    media_types := [], active_forwards := [], handlers := [],
    forwarded_groups := [], message_count := 0,
    config := { delay := 3, active_forwards := [], save_count := 0 } }

/-- A history in which the album with group id 7 appears on two pages;
the first relay call fails with a generic error, the second succeeds. -/
def envGroupRetry : ReplayEnv :=
  { batches := [FetchResult.batchOk [mPhoto 1 (some 7)],
                FetchResult.batchOk [mPhoto 2 (some 7)]],
    oracle := fun n => if n = 0 then DispatchOutcome.err else DispatchOutcome.ok,
    limit := none }

/-- A live-path state owning an empty dedup window for the rule
`(1, 2)`. -/
def stLive : ForwarderState :=
  { saved_id := 777, source_chat := none, target_chat := none,
    media_types := [], active_forwards := [(("1", "2"),
      { media_types := [], is_running := true })],
    handlers := [("1", "2")],
    forwarded_groups := [(("1", "2"), [])],
    message_count := 0,
    config := { delay := 3, active_forwards := [], save_count := 0 } }

/-! ## Further concrete inputs for the claims about windows and traces -/

/-- A window built by inserting group id 101 first and then the ids 1
to 100: its insertion order starts with 101. -/
def w101 : List Nat := 101 :: List.range' 1 100

/-- Number of monitoring hand-offs recorded in a trace. -/
def monCount (t : List Act) : Nat := t.count Act.monitorStarted

/-! ## Restoring persisted rules (`restore_active_forwards`, lines 169-190)

Entity resolution (`int(...)` parsing plus `client.get_entity`) is
modelled by a partial map from the stored id string to the resolved
entity id; `None` stands for any exception, which the source logs and
skips.  The loop iterates over the record list read from the
configuration at entry (the Python loop iterates the original list
object; `add_active_forward` rebinds the configuration list and does
not affect the iteration).
-/

/-- One iteration of the restore loop (lines 171-190): resolve the
source, normalize a saved-messages destination, otherwise resolve the
destination, then start monitoring; any resolution failure skips the
record. -/
def restore_one (env : String → Option Int) (st : ForwarderState)
    (f : ForwardRecord) : ForwarderState :=
  match env f.source_id with
  | none => st
  | some s =>
    if f.target_id = "saved_messages" ∨ f.target_id = "saved" then
      (start_forward_monitoring st { id := s } { id := st.saved_id } f.media_types).2
    else
      match env f.target_id with
      | none => st
      | some t => (start_forward_monitoring st { id := s } { id := t } f.media_types).2

/-- `MediaForwarder.restore_active_forwards` (lines 169-190). -/
def restore_active_forwards (env : String → Option Int) (st : ForwarderState) :
    ForwarderState :=
  st.config.active_forwards.foldl (restore_one env) st

/-- The rule-table key a persisted record restores to: its source id
and its destination id with the saved-messages shorthand normalized. -/
def keyOfRecord (f : ForwardRecord) : String × String :=
  (f.source_id,
   if f.target_id = "saved_messages" ∨ f.target_id = "saved" then "saved_messages"
   else f.target_id)

/-- Both endpoints of a persisted record resolve: the source id parses
and resolves to an entity carrying that id, and the destination is
either the saved-messages store or likewise resolves (to an entity
other than the saved-messages chat). -/
def recordResolvable (env : String → Option Int) (savedId : Int)
    (f : ForwardRecord) : Prop :=
  (∃ s : Int, env f.source_id = some s ∧ toString s = f.source_id) ∧
  (f.target_id = "saved_messages" ∨ f.target_id = "saved" ∨
    ∃ t : Int, env f.target_id = some t ∧ toString t = f.target_id ∧ t ≠ savedId)

/-- The resolution environment of the witness: two resolvable ids. -/
def envW : String → Option Int := fun x =>
  if x = "10" then some 10 else if x = "20" then some 20 else none

/-- A startup state whose store holds two rules: `10 -> 20` filtered
to photos, and `10 -> saved` (shorthand form) with an empty filter. -/
def stW : ForwarderState :=
  { saved_id := 777, source_chat := none, target_chat := none,
    media_types := [], active_forwards := [], handlers := [],
    forwarded_groups := [], message_count := 0,
    config :=
      { delay := 3,
        active_forwards :=
          [{ source_id := "10", target_id := "20", media_types := ["photo"] },
           { source_id := "10", target_id := "saved", media_types := [] }],
        save_count := 0 } }

/-! ## Theorems -/

/-- Helper for the characterization of the filter chain: an
if-then-else cascade of guarded early returns equals the disjunction of
the guards, provided the media-absence guard forces every body to be
false. -/
theorem chainEq (g a b c x y z : Bool)
    (h : g = true → x = false ∧ y = false ∧ z = false) :
    (if g then false
     else if a && x then true
     else if b && y then true
     else if c && z then true
     else false) = (a && x || b && y || c && z) := by
  cases g
  · cases a <;> cases b <;> cases c <;> cases x <;> cases y <;> cases z <;> simp
  · rcases h rfl with ⟨hx, hy, hz⟩
    subst hx; subst hy; subst hz
    simp

/-- C3 counterexample: for the filter set containing only `document`,
the claim says a document whose MIME type starts with `video/` must
not be forwarded (it is of kind `video`), but
`should_forward_message` returns true for it, because line 277 accepts
any message whose `document` attribute is populated before the MIME
type is inspected. -/
theorem c3_counterexample :
    shouldForwardSpec ["document"] vidDocMsg = false ∧
      should_forward_message ["document"] vidDocMsg = true := by
  constructor
  · rfl
  · rfl

/-- C3 amended: if the filter set is empty, `should_forward_message`
returns true iff the item carries any media; otherwise it returns the
disjunction of the per-kind checks, in which a document whose MIME
type starts with `video/` matches the `video` filter, but the
`document` filter also accepts every message whose `document`
attribute is populated regardless of MIME type (the MIME check only
excludes video documents when the `document` attribute is absent). -/
theorem c3_amended (mtypes : List String) (m : Msg) :
    should_forward_message mtypes m =
      (if mtypes.isEmpty then has_any_media m
       else (mtypes.contains "photo" && (m.photo || isMediaPhoto m.media))
         || (mtypes.contains "video" && (m.video || docVideoMime m.media))
         || (mtypes.contains "document" && (m.document || docNonVideoMime m.media))) := by
  unfold should_forward_message
  cases he : mtypes.isEmpty
  · simp only [he, Bool.false_eq_true, if_false]
    unfold check_media_type
    apply chainEq
    intro hg
    simp only [Bool.and_eq_true, Bool.not_eq_true', Bool.not_eq_eq_eq_not] at hg
    obtain ⟨⟨⟨hm, hp⟩, hd⟩, hv⟩ := hg
    have hmn : m.media = none := Option.not_isSome_iff_eq_none.mp (by simp [hm])
    refine ⟨?_, ?_, ?_⟩ <;> simp [hp, hd, hv, hmn, isMediaPhoto, docVideoMime, docNonVideoMime]
  · simp [he]

/-- The removal predicate shrinks the list iff some record matches. -/
theorem filter_length_lt_iff (l : List ForwardRecord) (sid tid : String) :
    (l.filter (fun f => decide (¬(f.source_id = sid ∧ f.target_id = tid)))).length < l.length
      ↔ ∃ f ∈ l, f.source_id = sid ∧ f.target_id = tid := by
  induction l with
  | nil => simp
  | cons f rest ih =>
    by_cases hf : f.source_id = sid ∧ f.target_id = tid
    · simp only [List.filter_cons]
      rw [if_neg (by simp [hf])]
      constructor
      · intro _
        exact ⟨f, List.mem_cons_self f rest, hf⟩
      · intro _
        exact Nat.lt_succ_of_le (List.length_filter_le _ _)
    · simp only [List.filter_cons]
      rw [if_pos (by simp [hf])]
      simp only [List.length_cons, Nat.succ_lt_succ_iff, ih]
      constructor
      · rintro ⟨g, hg, hgp⟩
        exact ⟨g, List.mem_cons_of_mem f hg, hgp⟩
      · rintro ⟨g, hg, hgp⟩
        rcases List.mem_cons.mp hg with rfl | hg
        · exact absurd hgp hf
        · exact ⟨g, hg, hgp⟩

/-- C10: `remove_active_forward` returns true iff a record with the
given identity pair was present; when none is present it returns
false, the stored list is untouched and no persistence write happens
(the returned configuration is exactly the input). -/
theorem c10_remove_spec (c : Config) (s t : String) :
    ((Configuration.remove_active_forward c s t).1 = true
      ↔ ∃ f ∈ c.active_forwards, f.source_id = s ∧ f.target_id = t)
  ∧ ((Configuration.remove_active_forward c s t).1 = false →
      (Configuration.remove_active_forward c s t).2 = c) := by
  unfold Configuration.remove_active_forward
  by_cases h : (c.active_forwards.filter
      (fun f => decide (¬(f.source_id = s ∧ f.target_id = t)))).length
        < c.active_forwards.length
  · rw [if_pos h]
    refine ⟨⟨fun _ => (filter_length_lt_iff c.active_forwards s t).mp h, fun _ => rfl⟩, ?_⟩
    intro hfalse
    simp at hfalse
  · rw [if_neg h]
    have hnone : ¬ ∃ f ∈ c.active_forwards, f.source_id = s ∧ f.target_id = t :=
      fun hex => h ((filter_length_lt_iff c.active_forwards s t).mpr hex)
    have heq : c.active_forwards.filter
        (fun f => decide (¬(f.source_id = s ∧ f.target_id = t))) = c.active_forwards := by
      apply List.filter_eq_self.mpr
      intro f hf
      simp only [decide_eq_true_eq]
      intro hp
      exact hnone ⟨f, hf, hp⟩
    refine ⟨⟨fun hb => ?_, fun hex => absurd hex hnone⟩, fun _ => ?_⟩
    · simp at hb
    · show ({ c with active_forwards := _ } : Config) = c
      rw [heq]

/-- C10 witness: a configuration with one record; removing an absent
pair returns false and leaves the configuration untouched. -/
theorem c10_witness :
    ((Configuration.remove_active_forward
        { delay := 3,
          active_forwards := [{ source_id := "1", target_id := "2", media_types := ["photo"] }],
          save_count := 0 } "1" "3").1 = false →
      (Configuration.remove_active_forward
        { delay := 3,
          active_forwards := [{ source_id := "1", target_id := "2", media_types := ["photo"] }],
          save_count := 0 } "1" "3").2
        = { delay := 3,
            active_forwards := [{ source_id := "1", target_id := "2", media_types := ["photo"] }],
            save_count := 0 })
    ∧ (Configuration.remove_active_forward
        { delay := 3,
          active_forwards := [{ source_id := "1", target_id := "2", media_types := ["photo"] }],
          save_count := 0 } "1" "3").1 = false := by
  refine ⟨(c10_remove_spec _ "1" "3").2, ?_⟩
  decide

/-- C5: starting a monitor for an identity pair that is already
running returns false and leaves the whole state untouched: no second
handler, no dedup-window reset, no rule-table change and no
configuration write. -/
theorem c5_start_noop (st : ForwarderState) (source target : Entity)
    (mts : List String) (e : ForwardEntry)
    (h : alookup st.active_forwards (startKey st source target) = some e)
    (hr : e.is_running = true) :
    start_forward_monitoring st source target mts = (false, st) := by
  unfold start_forward_monitoring
  simp only [h, hr, if_true]

/-- C5 witness: a concrete state with a running rule for the pair
`(5, saved_messages)`; a second start for the same pair is a no-op. -/
theorem c5_witness :
    start_forward_monitoring
      { saved_id := 777, source_chat := none, target_chat := none,
        media_types := ["photo"],
        active_forwards := [(("5", "saved_messages"),
          { media_types := ["photo"], is_running := true })],
        handlers := [("5", "saved_messages")],
        forwarded_groups := [(("5", "saved_messages"), [])],
        message_count := 0,
        config := { delay := 3, active_forwards := [], save_count := 0 } }
      { id := 5 } { id := 777 } ["video"]
    = (false,
      { saved_id := 777, source_chat := none, target_chat := none,
        media_types := ["photo"],
        active_forwards := [(("5", "saved_messages"),
          { media_types := ["photo"], is_running := true })],
        handlers := [("5", "saved_messages")],
        forwarded_groups := [(("5", "saved_messages"), [])],
        message_count := 0,
        config := { delay := 3, active_forwards := [], save_count := 0 } }) :=
  c5_start_noop _ _ _ _ { media_types := ["photo"], is_running := true } (by decide) rfl

/-- Deleting a key from a dictionary removes every binding of it. -/
theorem alookup_dictDel_self {α : Type} (l : List ((String × String) × α))
    (k : String × String) : alookup (dictDel l k) k = none := by
  induction l with
  | nil => rfl
  | cons p rest ih =>
    by_cases hp : p.1 = k
    · simp only [dictDel, List.filter_cons]
      rw [if_neg (by simp [hp])]
      exact ih
    · simp only [dictDel, List.filter_cons]
      rw [if_pos (by simp [hp])]
      simp only [alookup, if_neg hp]
      exact ih

/-- The configuration returned by `remove_active_forward` holds the
filtered record list, in both branches. -/
theorem remove_active_forward_list (c : Config) (s t : String) :
    (Configuration.remove_active_forward c s t).2.active_forwards
      = c.active_forwards.filter (fun f => decide (¬(f.source_id = s ∧ f.target_id = t))) := by
  simp only [Configuration.remove_active_forward]
  split
  · rfl
  · rfl

/-- C8: the shorthand destination `saved` and the canonical
`saved_messages` stop the same rule: both calls are equal; when a rule
keyed under the canonical destination is active, stopping via the
shorthand succeeds, wipes the rule from the table, the handler map and
the persisted store; and when no rule exists under either form, the
call reports false and the state is untouched. -/
theorem c8_stop_saved (st : ForwarderState) (s : String) :
    (stop_forward_monitoring st s "saved" = stop_forward_monitoring st s "saved_messages")
  ∧ ((alookup st.active_forwards (s, "saved_messages")).isSome = true →
      (stop_forward_monitoring st s "saved").1 = true
    ∧ alookup (stop_forward_monitoring st s "saved").2.active_forwards (s, "saved_messages") = none
    ∧ (s, "saved_messages") ∉ (stop_forward_monitoring st s "saved").2.handlers
    ∧ ∀ f ∈ (stop_forward_monitoring st s "saved").2.config.active_forwards,
        ¬(f.source_id = s ∧ f.target_id = "saved_messages"))
  ∧ (alookup st.active_forwards (s, "saved_messages") = none →
     alookup st.active_forwards (s, "saved") = none →
      stop_forward_monitoring st s "saved" = (false, st)) := by
  have hnorm1 : stopNorm "saved" = "saved_messages" := rfl
  have hnorm2 : stopNorm "saved_messages" = "saved_messages" := rfl
  refine ⟨?_, ?_, ?_⟩
  · unfold stop_forward_monitoring
    rw [hnorm1, hnorm2]
  · intro hsome
    unfold stop_forward_monitoring
    rw [hnorm1]
    rw [if_pos hsome]
    refine ⟨rfl, ?_, ?_, ?_⟩
    · exact alookup_dictDel_self _ _
    · intro hmem
      have := List.mem_filter.mp hmem
      simp at this
    · intro f hf
      rw [stopApply] at hf
      simp only [remove_active_forward_list] at hf
      have hmem := List.mem_filter.mp hf
      have h2 := hmem.2
      simp only [decide_eq_true_eq] at h2
      exact h2
  · intro h1 h2
    unfold stop_forward_monitoring
    rw [hnorm1]
    rw [if_neg (by simp [h1]), if_pos rfl, if_neg (by simp [h2])]

/-- C8 witness: stopping the active `(1, saved_messages)` rule through
the shorthand succeeds, and stopping an absent rule reports false and
changes nothing. -/
theorem c8_witness :
    (stop_forward_monitoring stSavedRule "1" "saved").1 = true
  ∧ stop_forward_monitoring stNoRules "9" "saved" = (false, stNoRules) := by
  constructor
  · exact ((c8_stop_saved stSavedRule "1").2.1 (by decide)).1
  · exact (c8_stop_saved stNoRules "9").2.2 (by decide) (by decide)

/-! ## Dictionary write lemma -/

/-- Reading back the key just written. -/
theorem alookup_dictSet_self {α : Type} (l : List ((String × String) × α))
    (k : String × String) (v : α) : alookup (dictSet l k v) k = some v := by
  unfold dictSet
  by_cases h : (alookup l k).isSome
  · rw [if_pos h]
    induction l with
    | nil => simp [alookup] at h
    | cons p rest ih =>
      by_cases hp : p.1 = k
      · simp [alookup, hp]
      · simp only [List.map_cons, if_neg hp]
        simp only [alookup, if_neg hp]
        apply ih
        simpa only [alookup, if_neg hp] using h
  · rw [if_neg h]
    have hn : alookup l k = none := by
      cases hl : alookup l k
      · rfl
      · rw [hl] at h; simp at h
    clear h
    induction l with
    | nil => simp [alookup]
    | cons p rest ih =>
      have hp : ¬ p.1 = k := by
        intro he
        rw [show alookup (p :: rest) k = some p.2 from by simp [alookup, he]] at hn
        cases hn
      simp only [List.cons_append, alookup, if_neg hp]
      apply ih
      simpa only [alookup, if_neg hp] using hn

/-! ## C1: when is a group marked in the dedup window? -/

/-- C1 counterexample: the album with group id 7 fails to dispatch on
the first page and is dispatched again on the second page of the same
run, so in the backlog path the group id is not in the window before
the dispatch outcome is known: the claimed mark-before-dispatch does
not hold there and a failed group is retried within the run. -/
theorem c1_counterexample :
    (forward_all_media envGroupRetry stRun).2.2
      = [Act.attempt [1], Act.attempt [2], Act.slept 3, Act.monitorStarted] := by
  decide

/-- C1 amended: in the live-monitor path the group id is inserted into
the dedup window of the rule before the dispatch outcome is known
(whatever the outcome is), so within that path a failed group is never
re-dispatched; in the backlog-replay path the group id is recorded
only after a successful dispatch, so a group whose dispatch fails is
dispatched again if it reappears later in the same run. -/
theorem c1_amended (outcome : DispatchOutcome) (recent : List Msg)
    (st : ForwarderState) (key : String × String) (m : Msg) (gid : Nat)
    (ctx : ReplayCtx) (s : ReplaySt) (g : Nat × List Msg)
    (hg : m.grouped_id = some gid)
    (hnot : ((alookup st.forwarded_groups key).getD []).contains gid = false)
    (hlen : ((alookup st.forwarded_groups key).getD []).length ≤ 99)
    (hng : s.groups.contains g.1 = false)
    (hfail : ctx.oracle s.calls ≠ DispatchOutcome.ok) :
    ((alookup (process_media_group outcome recent st key m).1.forwarded_groups key).getD []).contains gid = true
  ∧ (handleGroup ctx s g).groups = s.groups := by
  constructor
  · unfold process_media_group
    simp only [hg, Option.getD_some, hnot, Bool.false_eq_true, if_false]
    have hw : trimWindow ((alookup st.forwarded_groups key).getD [] ++ [gid])
        = (alookup st.forwarded_groups key).getD [] ++ [gid] := by
      unfold trimWindow
      rw [if_neg]
      simp only [List.length_append, List.length_cons, List.length_nil]
      omega
    simp only [hw, alookup_dictSet_self]
    simp
  · unfold handleGroup
    simp only [hng, Bool.false_eq_true, if_false]
    by_cases ha : (g.2.any fun m => should_forward_message ctx.mtypes m) = true
    · rw [if_pos ha]
      cases ho : ctx.oracle s.calls
      · exact absurd ho hfail
      · rfl
      · rfl
    · rw [if_neg ha]

/-- C1 witness: a failing live dispatch of the album 7 still marks 7
in the window of rule `(1, 2)`, and a failing backlog dispatch leaves
the run window without the group. -/
theorem c1_amended_witness :
    ((alookup (process_media_group DispatchOutcome.err [] stLive ("1", "2")
        (mPhoto 3 (some 7))).1.forwarded_groups ("1", "2")).getD []).contains 7 = true
  ∧ (handleGroup { oracle := fun _ => DispatchOutcome.err, delay := 3, mtypes := [], limit := none }
      replayInit (7, [mPhoto 1 (some 7)])).groups = replayInit.groups :=
  c1_amended DispatchOutcome.err [] stLive ("1", "2") (mPhoto 3 (some 7)) 7
    { oracle := fun _ => DispatchOutcome.err, delay := 3, mtypes := [], limit := none }
    replayInit (7, [mPhoto 1 (some 7)])
    rfl (by decide) (by decide) (by decide) (by decide)

/-! ## C2: rate-limit handling -/

/-- C2 counterexample: a rate-limited dispatch of message 5 with a
7 second wait produces exactly one relay attempt followed by the
7 second sleep, the state is unchanged and the message is never
attempted again: there is no retry of the same action. -/
theorem c2_counterexample :
    process_single_message (DispatchOutcome.flood 7) stRun (mPhoto 5 none)
      = (stRun, [Act.attempt [5], Act.slept 7]) := by
  decide

/-- C2 amended: on a rate-limit signal the pacer suspends for exactly
the provider-signaled number of seconds and the action is then
abandoned, not retried: in both the backlog path and the live path,
for single items and for whole groups alike, the trace gains one
attempt and the signaled sleep, the forwarded count does not grow, the
group is not marked in the backlog window, and processing continues
with the following items.  The four conjuncts cover, in order: the
backlog single item (lines 566-570), the live single item (lines
398-400), the backlog group (lines 595-599) and the live group (lines
373-375). -/
theorem c2_amended (ctx : ReplayCtx) (s : ReplaySt) (m : Msg) (w : Nat)
    (st : ForwarderState) (g : Nat × List Msg) (recent : List Msg)
    (key : String × String) (gid : Nat)
    (h1 : should_forward_message ctx.mtypes m = true)
    (h2 : ctx.oracle s.calls = DispatchOutcome.flood w)
    (h3 : should_forward_message st.media_types m = true)
    (hg1 : s.groups.contains g.1 = false)
    (hg2 : (g.2.any fun x => should_forward_message ctx.mtypes x) = true)
    (hm1 : m.grouped_id = some gid)
    (hm2 : ((alookup st.forwarded_groups key).getD []).contains gid = false)
    (hm3 : ((recent.filter (fun msg => msg.grouped_id == m.grouped_id)).any
        (fun msg => should_forward_message st.media_types msg)) = true)
    (hm4 : (recent.filter (fun msg => msg.grouped_id == m.grouped_id)).isEmpty = false) :
    handleSingle ctx s m
      = { s with calls := s.calls + 1,
                 trace := s.trace ++ [Act.attempt [m.id], Act.slept w] }
  ∧ process_single_message (DispatchOutcome.flood w) st m
      = (st, [Act.attempt [m.id], Act.slept w])
  ∧ handleGroup ctx s g
      = { s with calls := s.calls + 1,
                 trace := s.trace ++ [Act.attempt (g.2.map Msg.id), Act.slept w] }
  ∧ process_media_group (DispatchOutcome.flood w) recent st key m
      = ({ st with
             forwarded_groups := dictSet st.forwarded_groups key
               (trimWindow (((alookup st.forwarded_groups key).getD []) ++ [gid])) },
         [Act.attempt ((recent.filter (fun msg => msg.grouped_id == m.grouped_id)).map Msg.id),
          Act.slept w]) := by
  refine ⟨?_, ?_, ?_, ?_⟩
  · unfold handleSingle
    simp only [h1, if_true, h2]
  · unfold process_single_message
    simp only [h3, if_true]
  · unfold handleGroup
    simp only [hg1, Bool.false_eq_true, if_false, hg2, if_true, h2]
  · unfold process_media_group
    rw [hm1] at hm3 hm4
    simp only [hm1, Option.getD_some, hm2, Bool.false_eq_true, if_false, hm3, hm4,
      Bool.not_false, Bool.and_self, if_true]

/-- C2 witness: concrete rate-limited dispatches of a single item and
of a group, in the backlog path and in the live path. -/
theorem c2_amended_witness :
    handleSingle { oracle := fun _ => DispatchOutcome.flood 7, delay := 3, mtypes := [], limit := none }
      replayInit (mPhoto 5 (some 7))
      = { replayInit with
            calls := replayInit.calls + 1,
            trace := replayInit.trace ++ [Act.attempt [5], Act.slept 7] }
  ∧ process_single_message (DispatchOutcome.flood 7) stRun (mPhoto 5 (some 7))
      = (stRun, [Act.attempt [5], Act.slept 7])
  ∧ handleGroup { oracle := fun _ => DispatchOutcome.flood 7, delay := 3, mtypes := [], limit := none }
      replayInit (7, [mPhoto 1 (some 7)])
      = { replayInit with
            calls := replayInit.calls + 1,
            trace := replayInit.trace ++ [Act.attempt [1], Act.slept 7] }
  ∧ process_media_group (DispatchOutcome.flood 7) [mPhoto 5 (some 7)] stRun ("1", "2")
      (mPhoto 5 (some 7))
      = ({ stRun with
             forwarded_groups := dictSet stRun.forwarded_groups ("1", "2")
               (trimWindow (((alookup stRun.forwarded_groups ("1", "2")).getD []) ++ [7])) },
         [Act.attempt [5], Act.slept 7]) :=
  c2_amended { oracle := fun _ => DispatchOutcome.flood 7, delay := 3, mtypes := [], limit := none }
    replayInit (mPhoto 5 (some 7)) 7 stRun (7, [mPhoto 1 (some 7)]) [mPhoto 5 (some 7)]
    ("1", "2") 7
    (by decide) rfl (by decide) (by decide) (by decide) rfl (by decide) (by decide) (by decide)

set_option maxRecDepth 8000 in
/-- C4 counterexample: `w101` has 101 entries, so the trim fires; its
50 most-recently-inserted ids are the last 50 of the insertion order,
which exclude the very first insertion 101 — yet the trimmed window
retains 101, because `set(list(w)[-50:])` slices the set iteration
order (ascending ids), not the insertion order. -/
theorem c4_counterexample :
    w101.length > 100
  ∧ 101 ∈ trimWindow w101
  ∧ 101 ∉ w101.drop (w101.length - 50) := by
  decide

/-- C4 amended: when the window exceeds 100 entries, the trim retains
exactly 50 of its group ids — selected by the iteration order of the
underlying hash set (ascending numeric order for these ids), not by
insertion order — and discards all others; the retained ids need not
be the 50 most recently inserted. -/
theorem c4_amended (w : List Nat) (h : w.length > 100) :
    (trimWindow w).length = 50 ∧ ∀ x ∈ trimWindow w, x ∈ w := by
  unfold trimWindow
  rw [if_pos h]
  constructor
  · rw [List.length_drop, List.length_insertionSort]
    omega
  · intro x hx
    have hx2 : x ∈ List.insertionSort (· ≤ ·) w := List.mem_of_mem_drop hx
    exact (List.perm_insertionSort (· ≤ ·) w).mem_iff.mp hx2

/-- C4 witness: the trim of the 101-entry window keeps exactly 50 of
its ids. -/
theorem c4_amended_witness :
    (trimWindow w101).length = 50 ∧ ∀ x ∈ trimWindow w101, x ∈ w101 :=
  c4_amended w101 (by decide)

/-! ## C6 and C7: end of a backlog run -/

/-- A paging loop over pages none of which fail always completes. -/
theorem replayLoop_no_fail (ctx : ReplayCtx) (bs : List FetchResult)
    (hok : ∀ b ∈ bs, b ≠ FetchResult.batchFail) :
    ∀ s, ∃ s2, replayLoop ctx bs s = ReplayResult.finished s2 := by
  induction bs with
  | nil => exact fun s => ⟨s, rfl⟩
  | cons b rest ih =>
    intro s
    cases b with
    | batchFail => exact absurd rfl (hok _ (List.mem_cons_self _ _))
    | batchOk page =>
      simp only [replayLoop]
      split
      · exact ⟨s, rfl⟩
      · split
        · exact ⟨_, rfl⟩
        · exact ih (fun b hb => hok b (List.mem_cons_of_mem _ hb)) _

/-- C6: a backlog run over a history whose pages all fetch
successfully (the loop ends on an empty page, page-list exhaustion or
the caller limit) reports success, its final state is exactly the
state after `start_forward_monitoring` for the same source and target,
and the monitoring hand-off is the last action of the trace, before
the run returns. -/
theorem c6_replay_success (env : ReplayEnv) (st : ForwarderState) (src tgt : Entity)
    (hs : st.source_chat = some src) (ht : st.target_chat = some tgt)
    (hok : ∀ b ∈ env.batches, b ≠ FetchResult.batchFail) :
    (forward_all_media env st).1.1 = true
  ∧ (forward_all_media env st).2.1 = (start_forward_monitoring st src tgt st.media_types).2
  ∧ (forward_all_media env st).2.2.getLast? = some Act.monitorStarted := by
  obtain ⟨s2, h2⟩ := replayLoop_no_fail (mkCtx env st) env.batches hok replayInit
  unfold forward_all_media
  simp only [hs, ht, h2]
  exact ⟨trivial, trivial, by simp⟩

/-- C6 witness: a one-page history fully relayed, after which the
monitor for the same chats is started. -/
theorem c6_witness :
    (forward_all_media
        { batches := [FetchResult.batchOk [mPhoto 1 none]],
          oracle := fun _ => DispatchOutcome.ok, limit := none } stRun).1.1 = true
  ∧ (forward_all_media
        { batches := [FetchResult.batchOk [mPhoto 1 none]],
          oracle := fun _ => DispatchOutcome.ok, limit := none } stRun).2.1
      = (start_forward_monitoring stRun { id := 10 } { id := 20 } stRun.media_types).2
  ∧ (forward_all_media
        { batches := [FetchResult.batchOk [mPhoto 1 none]],
          oracle := fun _ => DispatchOutcome.ok, limit := none } stRun).2.2.getLast?
      = some Act.monitorStarted :=
  c6_replay_success
    { batches := [FetchResult.batchOk [mPhoto 1 none]],
      oracle := fun _ => DispatchOutcome.ok, limit := none }
    stRun { id := 10 } { id := 20 } rfl rfl (by decide)

/-- Single-message handling never hands off to monitoring. -/
theorem monCount_handleSingle (ctx : ReplayCtx) (s : ReplaySt) (m : Msg) :
    monCount (handleSingle ctx s m).trace = monCount s.trace := by
  unfold handleSingle
  split
  · cases ctx.oracle s.calls <;> simp [monCount, List.count_append]
  · rfl

/-- Group handling never hands off to monitoring. -/
theorem monCount_handleGroup (ctx : ReplayCtx) (s : ReplaySt) (g : Nat × List Msg) :
    monCount (handleGroup ctx s g).trace = monCount s.trace := by
  unfold handleGroup
  split
  · rfl
  · split
    · cases ctx.oracle s.calls <;> simp [monCount, List.count_append]
    · rfl

/-- Folding the single-message handler never hands off. -/
theorem monCount_foldSingles (ctx : ReplayCtx) (ms : List Msg) :
    ∀ s, monCount ((ms.foldl (handleSingle ctx) s)).trace = monCount s.trace := by
  induction ms with
  | nil => exact fun _ => rfl
  | cons m rest ih =>
    intro s
    rw [List.foldl_cons, ih, monCount_handleSingle]

/-- Folding the group handler never hands off. -/
theorem monCount_foldGroups (ctx : ReplayCtx) (gs : List (Nat × List Msg)) :
    ∀ s, monCount ((gs.foldl (handleGroup ctx) s)).trace = monCount s.trace := by
  induction gs with
  | nil => exact fun _ => rfl
  | cons g rest ih =>
    intro s
    rw [List.foldl_cons, ih, monCount_handleGroup]

/-- Page processing never hands off to monitoring. -/
theorem monCount_processBatch (ctx : ReplayCtx) (s : ReplaySt) (batch : List Msg) :
    monCount (processBatch ctx s batch).trace = monCount s.trace := by
  unfold processBatch
  rw [monCount_foldGroups, monCount_foldSingles]

/-- A failed paging loop never recorded a monitoring hand-off. -/
theorem monCount_replayLoop (ctx : ReplayCtx) (bs : List FetchResult) :
    ∀ s c s2, replayLoop ctx bs s = ReplayResult.failed c s2 →
      monCount s2.trace = monCount s.trace := by
  induction bs with
  | nil =>
    intro s c s2 h
    cases h
  | cons b rest ih =>
    intro s c s2 h
    cases b with
    | batchFail =>
      cases h
      rfl
    | batchOk page =>
      simp only [replayLoop] at h
      split at h
      · cases h
      · split at h
        · cases h
        · rw [ih _ _ _ h, monCount_processBatch]

/-- C7: when a page fetch fails, the backlog run aborts with
`success = false` and the partial forwarded count, the forwarder state
is completely untouched (in particular no rule is marked active), and
the trace contains no monitoring hand-off. -/
theorem c7_transport_failure (env : ReplayEnv) (st : ForwarderState)
    (src tgt : Entity) (c : Nat) (s : ReplaySt)
    (hs : st.source_chat = some src) (ht : st.target_chat = some tgt)
    (hf : replayLoop (mkCtx env st) env.batches replayInit = ReplayResult.failed c s) :
    forward_all_media env st = ((false, c), st, s.trace)
  ∧ monCount (forward_all_media env st).2.2 = 0 := by
  have hm := monCount_replayLoop (mkCtx env st) env.batches replayInit c s hf
  unfold forward_all_media
  simp only [hs, ht, hf]
  exact ⟨trivial, by rw [hm]; rfl⟩

/-- C7 witness: a history whose first fetch fails; the run aborts with
count 0, an unchanged state and an empty trace. -/
theorem c7_witness :
    forward_all_media
        { batches := [FetchResult.batchFail],
          oracle := fun _ => DispatchOutcome.ok, limit := none } stRun
      = ((false, 0), stRun, [])
  ∧ monCount (forward_all_media
        { batches := [FetchResult.batchFail],
          oracle := fun _ => DispatchOutcome.ok, limit := none } stRun).2.2 = 0 :=
  c7_transport_failure
    { batches := [FetchResult.batchFail],
      oracle := fun _ => DispatchOutcome.ok, limit := none }
    stRun { id := 10 } { id := 20 } 0 replayInit rfl rfl rfl

/-- Looking up in a concatenation falls through a missing key. -/
theorem alookup_append_of_none {α : Type} (l1 l2 : List ((String × String) × α))
    (k : String × String) (h : alookup l1 k = none) :
    alookup (l1 ++ l2) k = alookup l2 k := by
  induction l1 with
  | nil => rfl
  | cons p rest ih =>
    have hp : ¬ p.1 = k := by
      intro he
      rw [show alookup (p :: rest) k = some p.2 from by simp [alookup, he]] at h
      cases h
    simp only [List.cons_append, alookup, if_neg hp]
    apply ih
    simpa only [alookup, if_neg hp] using h

/-- Starting a monitor for a pair absent from the table succeeds and
appends exactly one running entry for the pair. -/
theorem start_fresh (st : ForwarderState) (src tgt : Entity) (mts : List String)
    (h : alookup st.active_forwards (startKey st src tgt) = none) :
    (start_forward_monitoring st src tgt mts).1 = true
  ∧ (start_forward_monitoring st src tgt mts).2.active_forwards
      = st.active_forwards
          ++ [(startKey st src tgt, { media_types := mts, is_running := true })]
  ∧ (start_forward_monitoring st src tgt mts).2.saved_id = st.saved_id := by
  unfold start_forward_monitoring
  simp only [h, Bool.false_eq_true, if_false]
  refine ⟨trivial, ?_, trivial⟩
  show dictSet st.active_forwards (startKey st src tgt) _ = _
  unfold dictSet
  rw [h]
  rfl

/-- One restore iteration of a resolvable record whose key is not yet
in the table appends exactly that rule, running, with the persisted
filter, and does not move the saved-messages id. -/
theorem restore_one_fresh (env : String → Option Int) (st : ForwarderState)
    (f : ForwardRecord)
    (hres : recordResolvable env st.saved_id f)
    (h : alookup st.active_forwards (keyOfRecord f) = none) :
    (restore_one env st f).active_forwards
      = st.active_forwards
          ++ [(keyOfRecord f, { media_types := f.media_types, is_running := true })]
  ∧ (restore_one env st f).saved_id = st.saved_id := by
  obtain ⟨⟨s, hs1, hs2⟩, htgt⟩ := hres
  unfold restore_one
  simp only [hs1]
  by_cases hsv : f.target_id = "saved_messages" ∨ f.target_id = "saved"
  · rw [if_pos hsv]
    have hkey : startKey st { id := s } { id := st.saved_id } = keyOfRecord f := by
      unfold startKey keyOfRecord
      rw [if_pos hsv]
      simp [hs2]
    rw [← hkey] at h
    obtain ⟨_, h2, h3⟩ := start_fresh st { id := s } { id := st.saved_id } f.media_types h
    rw [hkey] at h2
    exact ⟨h2, h3⟩
  · rw [if_neg hsv]
    rcases htgt with h1 | h1 | ⟨t, ht1, ht2, ht3⟩
    · exact absurd (Or.inl h1) hsv
    · exact absurd (Or.inr h1) hsv
    · simp only [ht1]
      have hkey : startKey st { id := s } { id := t } = keyOfRecord f := by
        unfold startKey keyOfRecord
        rw [if_neg hsv, if_neg ht3]
        simp [hs2, ht2]
      rw [← hkey] at h
      obtain ⟨_, h2, h3⟩ := start_fresh st { id := s } { id := t } f.media_types h
      rw [hkey] at h2
      exact ⟨h2, h3⟩

/-- The restore fold over records with resolvable endpoints and fresh,
pairwise distinct keys appends exactly one running entry per record. -/
theorem restore_fold (env : String → Option Int) (recs : List ForwardRecord) :
    ∀ st : ForwarderState,
      (∀ f ∈ recs, recordResolvable env st.saved_id f) →
      (recs.map keyOfRecord).Nodup →
      (∀ f ∈ recs, alookup st.active_forwards (keyOfRecord f) = none) →
      (recs.foldl (restore_one env) st).active_forwards
        = st.active_forwards
            ++ recs.map (fun f => (keyOfRecord f,
                ({ media_types := f.media_types, is_running := true } : ForwardEntry)))
    ∧ (recs.foldl (restore_one env) st).saved_id = st.saved_id := by
  induction recs with
  | nil =>
    intro st _ _ _
    simp
  | cons f rest ih =>
    intro st hres hnd hfresh
    obtain ⟨hact, hsaved⟩ :=
      restore_one_fresh env st f (hres f (List.mem_cons_self f rest))
        (hfresh f (List.mem_cons_self f rest))
    have hkf : keyOfRecord f ∉ rest.map keyOfRecord := (List.nodup_cons.mp hnd).1
    have hres1 : ∀ g ∈ rest, recordResolvable env (restore_one env st f).saved_id g := by
      rw [hsaved]
      exact fun g hg => hres g (List.mem_cons_of_mem f hg)
    have hfresh1 : ∀ g ∈ rest,
        alookup (restore_one env st f).active_forwards (keyOfRecord g) = none := by
      intro g hg
      rw [hact, alookup_append_of_none _ _ _ (hfresh g (List.mem_cons_of_mem f hg))]
      have hne : ¬ keyOfRecord f = keyOfRecord g := by
        intro he
        exact hkf (he ▸ List.mem_map_of_mem keyOfRecord hg)
      simp [alookup, hne]
    obtain ⟨ih1, ih2⟩ := ih (restore_one env st f) hres1 (List.nodup_cons.mp hnd).2 hfresh1
    constructor
    · rw [List.foldl_cons, ih1, hact]
      simp
    · rw [List.foldl_cons, ih2, hsaved]

/-- Looking up a record key in the table built from distinct-keyed
records yields that record. -/
theorem alookup_map_records (recs : List ForwardRecord) (f : ForwardRecord)
    (hf : f ∈ recs) (hnd : (recs.map keyOfRecord).Nodup) :
    alookup (recs.map (fun g => (keyOfRecord g,
        ({ media_types := g.media_types, is_running := true } : ForwardEntry))))
      (keyOfRecord f)
      = some { media_types := f.media_types, is_running := true } := by
  induction recs with
  | nil => cases hf
  | cons g rest ih =>
    rcases List.mem_cons.mp hf with rfl | hf2
    · simp [alookup]
    · have hne : ¬ keyOfRecord g = keyOfRecord f := by
        intro he
        exact (List.nodup_cons.mp hnd).1 (he ▸ List.mem_map_of_mem keyOfRecord hf2)
      simp only [List.map_cons, alookup, if_neg hne]
      exact ih hf2 (List.nodup_cons.mp hnd).2

/-- C9: restoring from a table of N persisted rules, all of whose
endpoints resolve and whose normalized identity pairs are distinct,
starting from an empty rule table, reconstructs exactly N running
monitors, one per persisted record, keyed by the persisted identity
pair (with the saved-messages shorthand normalized) and carrying the
persisted media-type filter. -/
theorem c9_restore_roundtrip (env : String → Option Int) (st : ForwarderState)
    (hempty : st.active_forwards = [])
    (hres : ∀ f ∈ st.config.active_forwards, recordResolvable env st.saved_id f)
    (hnd : (st.config.active_forwards.map keyOfRecord).Nodup) :
    (restore_active_forwards env st).active_forwards.length
      = st.config.active_forwards.length
  ∧ ∀ f ∈ st.config.active_forwards,
      alookup (restore_active_forwards env st).active_forwards (keyOfRecord f)
        = some { media_types := f.media_types, is_running := true } := by
  have hfresh : ∀ f ∈ st.config.active_forwards,
      alookup st.active_forwards (keyOfRecord f) = none := by
    intro f _
    rw [hempty]
    rfl
  obtain ⟨h1, _⟩ := restore_fold env st.config.active_forwards st hres hnd hfresh
  unfold restore_active_forwards
  rw [h1, hempty]
  constructor
  · simp
  · intro f hf
    simpa using alookup_map_records st.config.active_forwards f hf hnd

/-- C9 witness: restoring the two persisted rules of `stW` yields two
running monitors with the persisted pairs and filters. -/
theorem c9_witness :
    (restore_active_forwards envW stW).active_forwards.length
      = stW.config.active_forwards.length
  ∧ ∀ f ∈ stW.config.active_forwards,
      alookup (restore_active_forwards envW stW).active_forwards (keyOfRecord f)
        = some { media_types := f.media_types, is_running := true } := by
  apply c9_restore_roundtrip
  · rfl
  · intro f hf
    rcases List.mem_cons.mp hf with rfl | hf2
    · exact ⟨⟨10, rfl, rfl⟩, Or.inr (Or.inr ⟨20, rfl, rfl, by decide⟩)⟩
    · rcases List.mem_cons.mp hf2 with rfl | hf3
      · exact ⟨⟨10, rfl, rfl⟩, Or.inr (Or.inl rfl)⟩
      · cases hf3
  · decide
